import Mathlib

/-
Verification of the gallery scene controller (src/unnamed/part_000, the App
component): photo slots, plane geometry, paginated loading, the page-slide
queue, and the asset-loading progress registry.

Conventions of the shallow embedding:
* JS numbers that take part in exact arithmetic are modelled as rationals,
  integer counters as naturals or integers.
* The mutable module-level variables (photoEntries, pageOffset, totalCount)
  become the explicit record GalleryState threaded through the functions.
* Fallible async steps (fetch, json parse) are modelled with Except; the
  try/catch blocks of the source become matches on the Except value.
-/

/-! ## Data model (part_000 lines 23-55) -/

/-- MicroCMSImage. The TypeScript type declares width/height as required
numbers, but the code guards them with optional chaining and a fallback
(line 788: work.photo?.width || 1), so at runtime they may be absent or 0;
we model them as optional rationals. -/
structure MicroCMSImage where
  url : String
  width : Option ℚ
  height : Option ℚ
deriving DecidableEq

/-- WorkItem (lines 30-36). -/
structure WorkItem where
  id : String
  title : Option String
  body : Option String
  shootingdate : Option String
  photo : MicroCMSImage
deriving DecidableEq

/-- MicroCMSResponse (lines 38-43). -/
structure MicroCMSResponse where
  contents : List WorkItem
  totalCount : ℕ
  offset : ℤ
  limit : ℕ
deriving DecidableEq

/-- The state of one Babylon plane mesh that the claims are concerned
with: its geometry, position, rotation and enabled flag.  rotated = true
stands for rotation.y = pi (slots 0 and 1, line 818). -/
structure PlaneState where
  width : ℚ
  height : ℚ
  x : ℚ
  y : ℚ
  z : ℚ
  rotated : Bool
  enabled : Bool
deriving DecidableEq

/-- PhotoEntry (lines 46-55): the visual entities owned by one slot.
Materials and textures carry no state the claims talk about beyond the
photo url painted on the photo plane. -/
structure PhotoEntry where
  photoPlane : PlaneState
  whiteFramePlane : PlaneState
  blackFramePlane : PlaneState
  textPlane : PlaneState
  photoUrl : String
  originalZ : ℚ
deriving DecidableEq

/-- The mutable scene state of the component (lines 123-125 and the
scene.isDisposed flag consulted by the handlers). -/
structure GalleryState where
  slots : List (Option PhotoEntry)
  pageOffset : ℤ
  totalCount : ℕ
  sceneDisposed : Bool
deriving DecidableEq

/-! ## Plane geometry (lines 788-808) -/

/-- The `|| 1` fallback applied to work.photo?.width and height
(lines 788-789): a missing or zero dimension becomes 1. -/
def defaultDim (d : Option ℚ) : ℚ :=
  match d with
  | none => 1
  | some v => if v = 0 then 1 else v

/-- Lines 788-808: aspect = imgW / imgH; when aspect < 1 the code sets
planeW = 1 and planeH = planeW / aspect, otherwise planeH = 1 and
planeW = planeH * aspect; both dimensions are then multiplied by 0.5. -/
def planeDims (photo : MicroCMSImage) : ℚ × ℚ :=
  let imgW := defaultDim photo.width
  let imgH := defaultDim photo.height
  let aspect := imgW / imgH
  let pre : ℚ × ℚ := if aspect < 1 then (1, 1 / aspect) else (1 * aspect, 1)
  (pre.1 * (1/2), pre.2 * (1/2))

/-- The entity set built for one slot by createOrUpdateEntry
(lines 810-923): positions, frame paddings and depth offsets are the fixed
constants of the source.  The built value depends only on the work item and
the slot index. -/
def entryFor (work : WorkItem) (index : ℕ) : PhotoEntry :=
  let dims := planeDims work.photo
  let planeW := dims.1
  let planeH := dims.2
  let baseBottom : ℚ := 1.5
  let centerY := baseBottom + planeH / 2
  let spacing : ℚ := 1.25
  let wallFrontZ : ℚ := 0.89
  let xOffset : ℚ := if index < 2 then ((index : ℚ) - 0.5) * spacing else 0.5
  let zPos : ℚ := if index < 2 then -0.89 else wallFrontZ
  let rotY : Bool := index < 2
  let zDir : ℚ := if index < 2 then -1 else 1
  let frameThickness : ℚ := 0.08
  let blackFrameThickness : ℚ := 0.04
  let textW : ℚ := 1.5
  let textH : ℚ := 0.6
  let gap : ℚ := 0.02
  let textOffset : ℚ := 0.005
  { photoPlane :=
      { width := planeW, height := planeH, x := xOffset, y := centerY,
        z := zPos, rotated := rotY, enabled := true }
    whiteFramePlane :=
      { width := planeW + frameThickness * 2, height := planeH + frameThickness * 2,
        x := xOffset, y := centerY, z := zPos + 0.004 * zDir,
        rotated := rotY, enabled := true }
    blackFramePlane :=
      { width := planeW + blackFrameThickness * 2, height := planeH + blackFrameThickness * 2,
        x := xOffset, y := centerY, z := zPos + 0.002 * zDir,
        rotated := rotY, enabled := true }
    textPlane :=
      { width := textW, height := textH, x := xOffset,
        y := centerY - planeH / 2 - gap - textH / 2,
        z := zPos - textOffset * zDir, rotated := rotY, enabled := true }
    photoUrl := work.photo.url
    originalZ := zPos }

/-- createOrUpdateEntry (lines 772-925): returns unchanged when the scene
is disposed; otherwise disposes whatever occupied the slot and stores a
freshly built entity set there. -/
def createOrUpdateEntry (work : WorkItem) (index : ℕ) (st : GalleryState) : GalleryState :=
  if st.sceneDisposed then st
  else { st with slots := st.slots.set index (some (entryFor work index)) }

/-- setEnabled(false) on the four planes of an entry (lines 930-933). -/
def disableEntry (e : PhotoEntry) : PhotoEntry :=
  { e with
    photoPlane := { e.photoPlane with enabled := false }
    whiteFramePlane := { e.whiteFramePlane with enabled := false }
    blackFramePlane := { e.blackFramePlane with enabled := false }
    textPlane := { e.textPlane with enabled := false } }

/-- hideEntry (lines 927-935): disables the entities of a bound slot and
does nothing at all on an empty slot. -/
def hideEntry (index : ℕ) (st : GalleryState) : GalleryState :=
  match st.slots[index]? with
  | some (some e) => { st with slots := st.slots.set index (some (disableEntry e)) }
  | _ => st

/-- One iteration of the binding loop of loadPhotos (lines 992-998):
slot i receives items[i] when present and is hidden otherwise. -/
def bindSlot (items : List WorkItem) (i : ℕ) (st : GalleryState) : GalleryState :=
  match items[i]? with
  | some w => createOrUpdateEntry w i st
  | none => hideEntry i st

/-- The for-loop of loadPhotos over the three slots. -/
def bindSlots (items : List WorkItem) (st : GalleryState) : GalleryState :=
  (List.range 3).foldl (fun s i => bindSlot items i s) st

/-! ## Content fetch (loadPhotos, lines 938-1018) -/

/-- The response of the fetch call as far as loadPhotos inspects it:
res.ok, res.status, and the result of res.json() (none when parsing
rejects). -/
structure FetchResponse where
  ok : Bool
  status : ℕ
  body : Option MicroCMSResponse
deriving DecidableEq

/-- Outcome of awaiting fetch(): a response, the 10s-timeout abort, or a
network error. -/
inductive FetchResult where
  | success (res : FetchResponse)
  | abortError
  | networkError
deriving DecidableEq

/-- The error taxonomy of the inner try/catch of loadPhotos. -/
inductive FetchError where
  | abort
  | network
  | api (status : ℕ)
  | parse
deriving DecidableEq

/-- The inner try block of loadPhotos (lines 959-1014): await fetch; throw
on a non-ok status; return early when the scene was disposed while waiting;
parse json; only then assign totalCount and pageOffset and run the binding
loop. -/
def loadPhotosCore (st : GalleryState) (offset : ℤ) (outcome : FetchResult) :
    Except FetchError GalleryState :=
  match outcome with
  | .abortError => .error .abort
  | .networkError => .error .network
  | .success res =>
    if !res.ok then .error (.api res.status)
    else if st.sceneDisposed then .ok st
    else
      match res.body with
      | none => .error .parse
      | some data =>
        let st1 := { st with totalCount := data.totalCount, pageOffset := offset }
        .ok (bindSlots data.contents st1)

/-- loadPhotos (lines 938-1018).  A missing API key aborts before any
fetch (lines 940-944).  Every error raised inside is caught by the
catch blocks, which only log: the state is left exactly as it was. -/
def loadPhotos (apiKeyPresent : Bool) (st : GalleryState) (offset : ℤ)
    (outcome : FetchResult) : GalleryState :=
  if !apiKeyPresent then st
  else
    match loadPhotosCore st offset outcome with
    | .ok st1 => st1
    | .error _ => st

/-- True exactly on the failing fetches of claim C3: timeout abort,
network error, non-ok status, or json parse error. -/
def fetchFailed (outcome : FetchResult) : Bool :=
  match outcome with
  | .abortError => true
  | .networkError => true
  | .success res => !res.ok || res.body.isNone

/-! ## Pagination (pageSlide step 2, lines 1073-1079) -/

/-- The next-offset computation of pageSlide: nextOffset = pageOffset +
3 * direction, wrapped to Math.floor((totalCount - 1) / 3) * 3 when it
falls below zero and to 0 when it reaches totalCount.  Int.fdiv is
floor division, matching Math.floor of a float quotient. -/
def nextOffset (pageOffset totalCount direction : ℤ) : ℤ :=
  let n := pageOffset + 3 * direction
  if n < 0 then
    let maxPageStart := ((totalCount - 1).fdiv 3) * 3
    maxPageStart
  else if n ≥ totalCount then 0
  else n

/-- The same computation transcribed from the words of the specification
(section 4.4 step 2): pageOffset + 3 * direction; wrap below zero to the
last valid page start floor((totalCount - 1) / 3) * 3; wrap at or above
totalCount to 0. -/
def specNextOffset (pageOffset totalCount direction : ℤ) : ℤ :=
  if pageOffset + 3 * direction < 0 then ((totalCount - 1).fdiv 3) * 3
  else if pageOffset + 3 * direction ≥ totalCount then 0
  else pageOffset + 3 * direction

/-! ## Page-slide animations (lines 1020-1123)

animateMeshZ tweens position.z to a target and resolves when the timeline
ends (resolving immediately when the scene is disposed); the state it
leaves behind is the target depth.  We model the completed animation
barriers of pageSlide as state transformers. -/

/-- Step 1 of pageSlide on one enabled entry with index i: photo plane to
the off-stage depth of its wall, the companion planes shifted by the same
delta (lines 1052-1068). -/
def animateOutEntry (i : ℕ) (e : PhotoEntry) : PhotoEntry :=
  let targetZ : ℚ := if i < 2 then -1.5 else 1.5
  let delta := targetZ - e.originalZ
  { e with
    photoPlane := { e.photoPlane with z := targetZ }
    whiteFramePlane := { e.whiteFramePlane with z := e.whiteFramePlane.z + delta }
    blackFramePlane := { e.blackFramePlane with z := e.blackFramePlane.z + delta }
    textPlane := { e.textPlane with z := e.textPlane.z + delta } }

/-- The animate-out barrier over all enabled slots. -/
def animateOut (st : GalleryState) : GalleryState :=
  { st with
    slots := st.slots.mapIdx (fun i e? =>
      match e? with
      | some e => if e.photoPlane.enabled then some (animateOutEntry i e) else some e
      | none => none) }

/-- Step 3 of pageSlide on one enabled entry: photo plane from the hidden
depth back to originalZ, frames and caption at their fixed depth offsets
(lines 1084-1113). -/
def animateInEntry (i : ℕ) (e : PhotoEntry) : PhotoEntry :=
  let zDir : ℚ := if i < 2 then -1 else 1
  let textOffset : ℚ := 0.01
  { e with
    photoPlane := { e.photoPlane with z := e.originalZ }
    whiteFramePlane := { e.whiteFramePlane with z := e.originalZ + 0.002 * zDir }
    blackFramePlane := { e.blackFramePlane with z := e.originalZ + 0.001 * zDir }
    textPlane := { e.textPlane with z := e.originalZ - textOffset * zDir } }

/-- The animate-in barrier over all enabled slots. -/
def animateIn (st : GalleryState) : GalleryState :=
  { st with
    slots := st.slots.mapIdx (fun i e? =>
      match e? with
      | some e => if e.photoPlane.enabled then some (animateInEntry i e) else some e
      | none => none) }

/-! ## The slide queue (lines 127, 1046-1123) -/

/-- The try block of the queued closure of pageSlide: animate out, compute
the next offset, loadPhotos, animate in.  The Except layer mirrors the
surrounding try/catch; loadPhotos itself never throws because it catches
internally. -/
def pageSlideBody (apiKeyPresent : Bool) (st : GalleryState) (direction : ℤ)
    (outcome : FetchResult) : Except String GalleryState :=
  let st1 := animateOut st
  let next := nextOffset st.pageOffset (st.totalCount : ℤ) direction
  let st2 := loadPhotos apiKeyPresent st1 next outcome
  let st3 := animateIn st2
  .ok st3

/-- One queued pageSlide job run to completion.  resolve() is called at
the end of the try block and again in the catch block (lines 1116-1119),
so the Bool component records whether the promise of this job resolved. -/
def pageSlideStep (apiKeyPresent : Bool) (st : GalleryState) (direction : ℤ)
    (outcome : FetchResult) : GalleryState × Bool :=
  match pageSlideBody apiKeyPresent st direction outcome with
  | .ok st1 => (st1, true)
  | .error _ => (st, true)

/-- The slideQueue promise chain: jobs run strictly one after another, and
a job whose promise never resolved would keep every later job from
running, which the else branch makes explicit.  Returns the final state,
the resolution flag of each job that ran, and the offset each job passed
to loadPhotos. -/
def runSlideQueue (apiKeyPresent : Bool) (st : GalleryState) :
    List (ℤ × FetchResult) → GalleryState × List Bool × List ℤ
  | [] => (st, [], [])
  | (direction, outcome) :: rest =>
    let next := nextOffset st.pageOffset (st.totalCount : ℤ) direction
    let step := pageSlideStep apiKeyPresent st direction outcome
    if step.2 then
      let tail := runSlideQueue apiKeyPresent step.1 rest
      (tail.1, step.2 :: tail.2.1, next :: tail.2.2)
    else (step.1, [step.2], [next])

/-! ## Asset registry (lines 141-151, 154-197, 246-286) -/

/-- The module-level loading state: counters, the key sets, and whether
the overlay element currently exists (loadingOverlay not null). -/
structure RegState where
  totalAssets : ℕ
  loadedAssets : ℕ
  registeredKeys : List String
  overlayShown : Bool
  doneKeys : List String
deriving DecidableEq

/-- createLoadingOverlay (lines 154-197): a no-op when the overlay already
exists, otherwise the overlay appears. -/
def createLoadingOverlay (st : RegState) : RegState :=
  if st.overlayShown then st else { st with overlayShown := true }

/-- registerAsset (lines 246-286).  A call made while no overlay exists
opens a new session, clearing the key set and both counters.  A duplicate
key yields the inert handle and only ensures the overlay is visible; a
fresh key is recorded, totalAssets is incremented, and the returned handle
increments loadedAssets and records the key as done when invoked. -/
def registerAsset (key : String) (st : RegState) : (RegState → RegState) × RegState :=
  let st0 := if st.overlayShown then st
             else { st with registeredKeys := [], totalAssets := 0, loadedAssets := 0 }
  if key ∈ st0.registeredKeys then
    (fun s => s, createLoadingOverlay st0)
  else
    let st1 := { st0 with registeredKeys := key :: st0.registeredKeys,
                          totalAssets := st0.totalAssets + 1 }
    (fun s => { s with loadedAssets := s.loadedAssets + 1,
                       doneKeys := key :: s.doneKeys },
     createLoadingOverlay st1)

/-- What one run of updateLoadingOverlay (lines 203-244) writes to the
screen and schedules: the bar percent, the remaining percent shown in the
text, and the absolute time at which hideNow was scheduled, if it was. -/
structure OverlayView where
  percent : ℤ
  remainingText : ℤ
  hideAt : Option ℤ
deriving DecidableEq

/-- loadingOverlayMinMs (line 148). -/
def loadingOverlayMinMs : ℤ := 300

/-- The fixed extra delay of the hide timer (line 242, waitMs + 220). -/
def overlaySettleMs : ℤ := 220

/-- updateLoadingOverlay (lines 203-244) as a function of the counters,
the time the overlay first appeared, and the current time.  Math.round of
a nonnegative float is floor(x + 1/2), which is the Mathlib round. -/
def updateLoadingOverlay (totalAssets loadedAssets : ℕ) (shownAt now : ℤ) : OverlayView :=
  let percent : ℤ :=
    if totalAssets = 0 then 0
    else round (((loadedAssets : ℚ) / (totalAssets : ℚ)) * 100)
  let remaining : ℤ := 100 - percent
  let hideAt : Option ℤ :=
    if 0 < totalAssets ∧ totalAssets ≤ loadedAssets then
      let elapsed := now - shownAt
      let waitMs := max 0 (loadingOverlayMinMs - elapsed)
      some (now + waitMs + overlaySettleMs)
    else none
  { percent := percent, remainingText := remaining, hideAt := hideAt }

/-! ## The serialization model of the slide queue (claim C1)

pageSlide chains its work onto the single promise slideQueue
(line 127, lines 1046-1123):

  slideQueue = slideQueue.then(async () => ...)

so the body of call j + 1 is a then-continuation of the promise of call j.
Within one body there are two await barriers between its three pieces of
work: animate-out (awaited at line 1070), the fetch (awaited at
line 1081), animate-in (awaited at line 1115).

We model an execution as a trace of completed atomic tasks (j, p): piece p
of queued call j, with p < 3 (0 = animate-out, 1 = fetch, 2 = animate-in).
The only ordering the platform guarantees is the dependency relation read
off the code: task (j, p + 1) runs after (j, p) because of the awaits, and
task (j + 1, 0) runs after (j, 2) because of the then-chaining.  A valid
trace is any interleaving that respects those dependencies; the theorem
shows they force the fully serialized order. -/

/-- The immediate dependency of a task: the await it sits behind, or the
then-chaining for the first piece of a later call. -/
def prevTask : ℕ × ℕ → Option (ℕ × ℕ)
  | (0, 0) => none
  | (j + 1, 0) => some (j, 2)
  | (j, p + 1) => some (j, p)

/-- A task of a queue of n calls: call index below n, piece index below 3. -/
def isTask (n : ℕ) (t : ℕ × ℕ) : Prop := t.1 < n ∧ t.2 < 3

instance (n : ℕ) (t : ℕ × ℕ) : Decidable (isTask n t) :=
  inferInstanceAs (Decidable (t.1 < n ∧ t.2 < 3))

/-- The position a task holds in the fully serialized schedule. -/
def taskRank (t : ℕ × ℕ) : ℕ := 3 * t.1 + t.2

/-- The task occupying a given position of the serialized schedule. -/
def taskOfRank (r : ℕ) : ℕ × ℕ := (r / 3, r % 3)

/-- The dependency of a task is discharged by a list of already completed
tasks. -/
def prevDone (t : ℕ × ℕ) (pre : List (ℕ × ℕ)) : Prop :=
  ∀ s, prevTask t = some s → s ∈ pre

instance (t : ℕ × ℕ) (pre : List (ℕ × ℕ)) : Decidable (prevDone t pre) :=
  match h : prevTask t with
  | none => isTrue (by intro s hs; rw [h] at hs; cases hs)
  | some s =>
    if hm : s ∈ pre then
      isTrue (by intro u hu; rw [h] at hu; injection hu with e; rw [← e]; exact hm)
    else
      isFalse (by intro hp; exact hm (hp s h))

/-- A completed execution of a queue of n pageSlide calls: every task runs
exactly once, and a task runs only after the task it awaits has
completed. -/
def ValidTrace (n : ℕ) (tr : List (ℕ × ℕ)) : Prop :=
  tr.Nodup ∧ tr.length = 3 * n ∧
  ∀ i (h : i < tr.length), isTask n (tr.get ⟨i, h⟩) ∧ prevDone (tr.get ⟨i, h⟩) (tr.take i)

instance (n : ℕ) (tr : List (ℕ × ℕ)) : Decidable (ValidTrace n tr) := by
  unfold ValidTrace
  infer_instance

/-! ## Demonstration values used by the witnesses -/

/-- A fully serialized execution of two queued calls. -/
def demoTrace : List (ℕ × ℕ) := [(0, 0), (0, 1), (0, 2), (1, 0), (1, 1), (1, 2)]

/-- A work item with an ordinary 4:3 landscape photo. -/
def demoWork : WorkItem :=
  { id := "w1", title := none, body := none, shootingdate := none,
    photo := { url := "u1", width := some 4, height := some 3 } }

/-- A work item whose photo width is malformed (zero) while its height is
present. -/
def demoWorkZeroWidth : WorkItem :=
  { id := "w2", title := none, body := none, shootingdate := none,
    photo := { url := "u2", width := some 0, height := some 2 } }

/-- A work item whose photo carries neither width nor height. -/
def demoWorkNoDims : WorkItem :=
  { id := "w3", title := none, body := none, shootingdate := none,
    photo := { url := "u3", width := none, height := none } }

/-- The scene state right after initialization (line 123-125). -/
def demoGallery : GalleryState :=
  { slots := [none, none, none], pageOffset := 0, totalCount := 0, sceneDisposed := false }

/-- The registry state before any asset was ever registered. -/
def demoReg : RegState :=
  { totalAssets := 0, loadedAssets := 0, registeredKeys := [],
    overlayShown := false, doneKeys := [] }

/-! ## Helper lemmas -/

theorem nextOffset_dvd (p t d : ℤ) (h : 3 ∣ p) : 3 ∣ nextOffset p t d := by
  simp only [nextOffset]
  split
  · exact dvd_mul_left 3 ((t - 1).fdiv 3)
  · split
    · exact dvd_zero 3
    · exact dvd_add h (dvd_mul_right 3 d)

theorem createOrUpdateEntry_pageOffset (w : WorkItem) (i : ℕ) (st : GalleryState) :
    (createOrUpdateEntry w i st).pageOffset = st.pageOffset := by
  unfold createOrUpdateEntry; split <;> rfl

theorem hideEntry_pageOffset (i : ℕ) (st : GalleryState) :
    (hideEntry i st).pageOffset = st.pageOffset := by
  unfold hideEntry; split <;> rfl

theorem bindSlot_pageOffset (items : List WorkItem) (i : ℕ) (st : GalleryState) :
    (bindSlot items i st).pageOffset = st.pageOffset := by
  unfold bindSlot; split
  · exact createOrUpdateEntry_pageOffset _ _ _
  · exact hideEntry_pageOffset _ _

theorem bindSlots_pageOffset (items : List WorkItem) (st : GalleryState) :
    (bindSlots items st).pageOffset = st.pageOffset := by
  show (bindSlot items 2 (bindSlot items 1 (bindSlot items 0 st))).pageOffset = st.pageOffset
  rw [bindSlot_pageOffset, bindSlot_pageOffset, bindSlot_pageOffset]

theorem loadPhotosCore_ok_pageOffset (st : GalleryState) (offset : ℤ)
    (outcome : FetchResult) (st1 : GalleryState)
    (h : loadPhotosCore st offset outcome = .ok st1) :
    st1.pageOffset = offset ∨ st1.pageOffset = st.pageOffset := by
  unfold loadPhotosCore at h
  cases outcome with
  | abortError => cases h
  | networkError => cases h
  | success res =>
    dsimp only at h
    split at h
    · cases h
    · split at h
      · right; cases h; rfl
      · split at h
        · cases h
        · left; cases h; rw [bindSlots_pageOffset]

theorem loadPhotos_pageOffset (a : Bool) (st : GalleryState) (offset : ℤ)
    (outcome : FetchResult) :
    (loadPhotos a st offset outcome).pageOffset = offset ∨
    (loadPhotos a st offset outcome).pageOffset = st.pageOffset := by
  unfold loadPhotos
  split
  · right; rfl
  · split
    · next st1 heq => exact loadPhotosCore_ok_pageOffset _ _ _ _ heq
    · right; rfl

theorem animateOut_pageOffset (st : GalleryState) :
    (animateOut st).pageOffset = st.pageOffset := rfl

theorem animateIn_pageOffset (st : GalleryState) :
    (animateIn st).pageOffset = st.pageOffset := rfl

theorem pageSlideStep_eq (a : Bool) (st : GalleryState) (d : ℤ) (o : FetchResult) :
    pageSlideStep a st d o =
      (animateIn (loadPhotos a (animateOut st)
        (nextOffset st.pageOffset (st.totalCount : ℤ) d) o), true) := rfl

theorem pageSlideStep_resolves (a : Bool) (st : GalleryState) (d : ℤ) (o : FetchResult) :
    (pageSlideStep a st d o).2 = true := by rw [pageSlideStep_eq]

/-! ## Claim theorems -/

/-- C2: the next offset computed by a page transition equals
pageOffset + 3 * direction, wrapping a result below zero to
floor((totalCount - 1) / 3) * 3 and a result at or above totalCount to 0;
with totalCount = 7, advancing backward from offset 0 yields 6 and
advancing forward from offset 6 yields 0. -/
theorem nextOffset_matches_spec :
    (∀ p t d : ℤ, nextOffset p t d = specNextOffset p t d) ∧
    nextOffset 0 7 (-1) = 6 ∧ nextOffset 6 7 1 = 0 :=
  ⟨fun _ _ _ => rfl, by decide, by decide⟩

/-- C3: every failing fetch (abort, network error, non-ok status, parse
error) during loadPhotos leaves the whole gallery state - slot entries,
pageOffset and totalCount - exactly unchanged. -/
theorem loadPhotos_failure_preserves_state (a : Bool) (st : GalleryState)
    (offset : ℤ) (outcome : FetchResult) (hfail : fetchFailed outcome = true) :
    loadPhotos a st offset outcome = st := by
  cases outcome with
  | abortError => cases a <;> rfl
  | networkError => cases a <;> rfl
  | success res =>
    simp only [fetchFailed, Bool.or_eq_true, Bool.not_eq_eq_eq_not, Bool.not_true,
      Option.isNone_iff_eq_none] at hfail
    cases a with
    | false => rfl
    | true =>
      unfold loadPhotos loadPhotosCore
      rcases hfail with hok | hbody
      · simp [hok]
      · rcases hok2 : res.ok with _ | _
        · simp [hok2]
        · rcases hd : st.sceneDisposed with _ | _ <;> simp [hok2, hbody, hd]

/-- C3 witness: a concrete network failure leaves the initial state
untouched. -/
theorem loadPhotos_failure_preserves_state_witness :
    fetchFailed FetchResult.networkError = true ∧
    loadPhotos true demoGallery 3 FetchResult.networkError = demoGallery :=
  ⟨rfl, loadPhotos_failure_preserves_state true demoGallery 3 FetchResult.networkError rfl⟩

/-- C4: every queued pageSlide job resolves, whatever its fetch outcome,
so every job queued behind it also gets to run: the queue records exactly
one resolution flag per job and each flag is true. -/
theorem slideQueue_always_resolves (a : Bool) (st : GalleryState)
    (jobs : List (ℤ × FetchResult)) :
    (runSlideQueue a st jobs).2.1.length = jobs.length ∧
    ∀ b ∈ (runSlideQueue a st jobs).2.1, b = true := by
  induction jobs generalizing st with
  | nil => simp [runSlideQueue]
  | cons j rest ih =>
    obtain ⟨d, o⟩ := j
    simp only [runSlideQueue, pageSlideStep_resolves, if_true]
    refine ⟨?_, ?_⟩
    · simp [(ih (pageSlideStep a st d o).1).1]
    · intro b hb
      rcases List.mem_cons.mp hb with hb | hb
      · exact hb
      · exact (ih (pageSlideStep a st d o).1).2 b hb

/-- C9: starting from a page offset divisible by 3 (the initial load uses
offset 0), every offset a page transition passes to loadPhotos and the
pageOffset stored at the end of any sequence of transitions - successful
or failing, under any totalCount values the API returns - is a multiple
of 3. -/
theorem pagination_offsets_multiple_of_three (a : Bool) (st : GalleryState)
    (jobs : List (ℤ × FetchResult)) (h : (3 : ℤ) ∣ st.pageOffset) :
    (∀ o ∈ (runSlideQueue a st jobs).2.2, (3 : ℤ) ∣ o) ∧
    (3 : ℤ) ∣ (runSlideQueue a st jobs).1.pageOffset := by
  induction jobs generalizing st with
  | nil => simpa [runSlideQueue] using h
  | cons j rest ih =>
    obtain ⟨d, o⟩ := j
    have hnext : (3 : ℤ) ∣ nextOffset st.pageOffset (st.totalCount : ℤ) d :=
      nextOffset_dvd _ _ _ h
    have hstep : (3 : ℤ) ∣ (pageSlideStep a st d o).1.pageOffset := by
      rw [pageSlideStep_eq]
      rcases loadPhotos_pageOffset a (animateOut st)
          (nextOffset st.pageOffset (st.totalCount : ℤ) d) o with h1 | h1
      · rw [animateIn_pageOffset, h1]; exact hnext
      · rw [animateIn_pageOffset, h1, animateOut_pageOffset]; exact h
    obtain ⟨ih1, ih2⟩ := ih (pageSlideStep a st d o).1 hstep
    simp only [runSlideQueue, pageSlideStep_resolves, if_true]
    refine ⟨?_, ih2⟩
    intro off hoff
    rcases List.mem_cons.mp hoff with hoff | hoff
    · rw [hoff]; exact hnext
    · exact ih1 off hoff

/-- C9 witness: from the freshly initialized state, a backward slide that
fails its fetch still only ever passes multiples of 3. -/
theorem pagination_offsets_multiple_of_three_witness :
    (3 : ℤ) ∣ demoGallery.pageOffset ∧
    ((∀ o ∈ (runSlideQueue true demoGallery [((-1 : ℤ), FetchResult.networkError)]).2.2,
        (3 : ℤ) ∣ o) ∧
      (3 : ℤ) ∣ (runSlideQueue true demoGallery
        [((-1 : ℤ), FetchResult.networkError)]).1.pageOffset) :=
  ⟨by decide, pagination_offsets_multiple_of_three true demoGallery
    [((-1 : ℤ), FetchResult.networkError)] (by decide)⟩

/-- C10: binding or hiding one slot leaves every other slot untouched; the
value written by a bind depends only on the work item and the slot index,
never on the other slots; and hiding an empty slot changes nothing. -/
theorem slot_ops_frame (st : GalleryState) (w : WorkItem) (i j : ℕ) (hij : j ≠ i) :
    (createOrUpdateEntry w i st).slots[j]? = st.slots[j]? ∧
    (hideEntry i st).slots[j]? = st.slots[j]? ∧
    (st.slots[i]? = some none → hideEntry i st = st) ∧
    (st.sceneDisposed = false →
      (createOrUpdateEntry w i st).slots = st.slots.set i (some (entryFor w i))) := by
  refine ⟨?_, ?_, ?_, ?_⟩
  · unfold createOrUpdateEntry
    split
    · rfl
    · exact List.getElem?_set_ne (Ne.symm hij)
  · unfold hideEntry
    split
    · exact List.getElem?_set_ne (Ne.symm hij)
    · rfl
  · intro hi
    simp [hideEntry, hi]
  · intro hd
    simp [createOrUpdateEntry, hd]

/-- C10 witness: on the initial empty state, binding slot 0 leaves slot 1
alone and hiding the empty slot 0 is a no-op. -/
theorem slot_ops_frame_witness :
    (1 ≠ 0) ∧
    ((createOrUpdateEntry demoWork 0 demoGallery).slots[1]? = demoGallery.slots[1]? ∧
      (hideEntry 0 demoGallery).slots[1]? = demoGallery.slots[1]? ∧
      (demoGallery.slots[0]? = some none → hideEntry 0 demoGallery = demoGallery) ∧
      (demoGallery.sceneDisposed = false →
        (createOrUpdateEntry demoWork 0 demoGallery).slots =
          demoGallery.slots.set 0 (some (entryFor demoWork 0)))) :=
  ⟨by decide, slot_ops_frame demoGallery demoWork 0 1 (by decide)⟩

/-- C5: within one loading session, registering the same key twice
increments totalAssets only once; the second registration hands back an
inert completion handle whose invocation changes nothing (in particular
loadedAssets), while the overlay is still ensured visible. -/
theorem registerAsset_duplicate_key (st : RegState) (key : String)
    (hfresh : st.overlayShown = false) :
    (registerAsset key st).2.totalAssets = 1 ∧
    (registerAsset key (registerAsset key st).2).2.totalAssets = 1 ∧
    (∀ s, (registerAsset key (registerAsset key st).2).1 s = s) ∧
    (∀ s, ((registerAsset key (registerAsset key st).2).1 s).loadedAssets = s.loadedAssets) ∧
    (registerAsset key (registerAsset key st).2).2.overlayShown = true := by
  simp [registerAsset, createLoadingOverlay, hfresh]

/-- C5 witness: the concrete double registration of key k on the pristine
registry. -/
theorem registerAsset_duplicate_key_witness :
    demoReg.overlayShown = false ∧
    ((registerAsset "k" demoReg).2.totalAssets = 1 ∧
      (registerAsset "k" (registerAsset "k" demoReg).2).2.totalAssets = 1 ∧
      (∀ s, (registerAsset "k" (registerAsset "k" demoReg).2).1 s = s) ∧
      (∀ s, ((registerAsset "k" (registerAsset "k" demoReg).2).1 s).loadedAssets
        = s.loadedAssets) ∧
      (registerAsset "k" (registerAsset "k" demoReg).2).2.overlayShown = true) :=
  ⟨rfl, registerAsset_duplicate_key demoReg "k" rfl⟩

/-- C6: each progress recompute reports
percent = round(100 * loadedAssets / totalAssets) (0 when totalAssets = 0),
shows 100 - percent in the overlay text, and schedules the overlay
dismissal exactly when loadedAssets has reached totalAssets > 0, for a
time at least 300 ms after the first show plus the fixed 220 ms settle
delay. -/
theorem updateLoadingOverlay_spec (t l : ℕ) (shownAt now : ℤ) :
    (updateLoadingOverlay t l shownAt now).percent
      = (if t = 0 then 0 else round ((100 * (l : ℚ)) / (t : ℚ))) ∧
    (updateLoadingOverlay t l shownAt now).remainingText
      = 100 - (updateLoadingOverlay t l shownAt now).percent ∧
    ((updateLoadingOverlay t l shownAt now).hideAt.isSome ↔ 0 < t ∧ t ≤ l) ∧
    ∀ h, (updateLoadingOverlay t l shownAt now).hideAt = some h →
      shownAt + loadingOverlayMinMs + overlaySettleMs ≤ h := by
  refine ⟨?_, rfl, ?_, ?_⟩
  · unfold updateLoadingOverlay
    by_cases ht : t = 0
    · simp [ht]
    · simp only [ht, if_false]
      congr 1
      ring
  · unfold updateLoadingOverlay
    dsimp only
    split
    · next hc => simpa using hc
    · next hc => simpa using hc
  · intro h heq
    unfold updateLoadingOverlay at heq
    dsimp only at heq
    split at heq
    · injection heq with he
      have hmax := le_max_right (0 : ℤ) (loadingOverlayMinMs - (now - shownAt))
      linarith [he.symm.le]
    · cases heq

/-- C7 counterexample: for a 2:1 landscape photo the computed plane is
1 by 1/2, so the larger of the two final dimensions is 1, not 0.5: the
code clamps the smaller dimension to the unit size, not the larger one. -/
theorem planeDims_larger_dim_not_half :
    max (planeDims { url := "u2", width := some 2, height := some 1 }).1
      (planeDims { url := "u2", width := some 2, height := some 1 }).2 ≠ (1/2 : ℚ) := by
  norm_num [planeDims, defaultDim]

/-- C7 amended: the plane geometry computed by bind from the photo aspect
ratio is clamped so that the SMALLER of the two dimensions equals the
fixed unit size, and both dimensions are then uniformly halved, so the
smaller final dimension is 0.5 (for any photo whose defaulted dimensions
are positive). -/
theorem planeDims_smaller_dim_is_half (photo : MicroCMSImage)
    (hw : 0 < defaultDim photo.width) (hh : 0 < defaultDim photo.height) :
    min (planeDims photo).1 (planeDims photo).2 = (1/2 : ℚ) := by
  have hapos : 0 < defaultDim photo.width / defaultDim photo.height := div_pos hw hh
  unfold planeDims
  by_cases hlt : defaultDim photo.width / defaultDim photo.height < 1
  · simp only [hlt, if_true]
    have h2 : (1 : ℚ) ≤ 1 / (defaultDim photo.width / defaultDim photo.height) := by
      rw [le_div_iff₀ hapos]
      linarith [hlt.le]
    rw [min_eq_left (by nlinarith :
      (1 : ℚ) * (1/2) ≤ (1 / (defaultDim photo.width / defaultDim photo.height)) * (1/2))]
    norm_num
  · simp only [hlt, if_false]
    have h1 : (1 : ℚ) ≤ defaultDim photo.width / defaultDim photo.height := not_lt.mp hlt
    rw [min_eq_right (by nlinarith :
      (1 : ℚ) * (1/2) ≤ 1 * (defaultDim photo.width / defaultDim photo.height) * (1/2))]
    norm_num

/-- C7 witness: the 4:3 landscape demo item has positive defaulted
dimensions and its plane has smaller final dimension 1/2. -/
theorem planeDims_smaller_dim_is_half_witness :
    0 < defaultDim demoWork.photo.width ∧ 0 < defaultDim demoWork.photo.height ∧
    min (planeDims demoWork.photo).1 (planeDims demoWork.photo).2 = (1/2 : ℚ) :=
  ⟨by norm_num [demoWork, defaultDim], by norm_num [demoWork, defaultDim],
    planeDims_smaller_dim_is_half demoWork.photo
      (by norm_num [demoWork, defaultDim]) (by norm_num [demoWork, defaultDim])⟩

/-- C8 counterexample: a work item whose photo width alone is malformed
(zero) binds to a 1/2 by 1 plane, not a square: only the malformed
dimension is defaulted to 1, the aspect ratio does not become 1:1. -/
theorem bind_single_missing_dim_not_square :
    (entryFor demoWorkZeroWidth 0).photoPlane.width ≠
    (entryFor demoWorkZeroWidth 0).photoPlane.height := by
  norm_num [entryFor, planeDims, defaultDim, demoWorkZeroWidth]

/-- C8 amended: each zero-or-missing photo dimension is defaulted to 1, so
binding never divides by zero and completes; when BOTH width and height
are zero or missing the aspect ratio defaults to 1:1 and the bound photo
plane is square (1/2 by 1/2). -/
theorem bind_both_missing_dims_square (work : WorkItem) (index : ℕ)
    (hw : work.photo.width = none ∨ work.photo.width = some 0)
    (hh : work.photo.height = none ∨ work.photo.height = some 0) :
    (entryFor work index).photoPlane.width = (1/2 : ℚ) ∧
    (entryFor work index).photoPlane.height = (1/2 : ℚ) := by
  have hw1 : defaultDim work.photo.width = 1 := by
    rcases hw with h | h <;> simp [defaultDim, h]
  have hh1 : defaultDim work.photo.height = 1 := by
    rcases hh with h | h <;> simp [defaultDim, h]
  unfold entryFor planeDims
  simp [hw1, hh1]

/-- C8 witness: the demo item with no dimensions at all binds to the
square 1/2 by 1/2 plane. -/
theorem bind_both_missing_dims_square_witness :
    (demoWorkNoDims.photo.width = none ∨ demoWorkNoDims.photo.width = some 0) ∧
    (demoWorkNoDims.photo.height = none ∨ demoWorkNoDims.photo.height = some 0) ∧
    (entryFor demoWorkNoDims 0).photoPlane.width = (1/2 : ℚ) ∧
    (entryFor demoWorkNoDims 0).photoPlane.height = (1/2 : ℚ) :=
  ⟨Or.inl rfl, Or.inl rfl,
    bind_both_missing_dims_square demoWorkNoDims 0 (Or.inl rfl) (Or.inl rfl)⟩

/-! ## Serialization of the slide queue -/

theorem taskRank_taskOfRank (r : ℕ) : taskRank (taskOfRank r) = r := by
  unfold taskRank taskOfRank
  omega

theorem taskOfRank_taskRank (n : ℕ) (t : ℕ × ℕ) (h : isTask n t) :
    taskOfRank (taskRank t) = t := by
  obtain ⟨a, b⟩ := t
  obtain ⟨h1, h2⟩ := h
  unfold taskRank taskOfRank
  simp only [Prod.mk.injEq]
  omega

theorem prevTask_none (t : ℕ × ℕ) (h : prevTask t = none) : t = (0, 0) := by
  obtain ⟨a, b⟩ := t
  cases b with
  | zero =>
    cases a with
    | zero => rfl
    | succ a1 => simp [prevTask] at h
  | succ b1 => simp [prevTask] at h

theorem prevTask_rank (t s : ℕ × ℕ) (h : prevTask t = some s) :
    taskRank t = taskRank s + 1 := by
  obtain ⟨a, b⟩ := t
  cases b with
  | zero =>
    cases a with
    | zero => simp [prevTask] at h
    | succ a1 =>
      simp only [prevTask, Option.some.injEq] at h
      rw [← h]
      unfold taskRank
      omega
  | succ b1 =>
    simp only [prevTask, Option.some.injEq] at h
    rw [← h]
    unfold taskRank
    omega

/-- In a valid trace, the task completed at position i is exactly the task
of rank i of the fully serialized schedule: the awaits and the
then-chaining leave the scheduler no other choice. -/
theorem validTrace_rank_get (n : ℕ) (tr : List (ℕ × ℕ)) (v : ValidTrace n tr) :
    ∀ i (h : i < tr.length), taskRank (tr.get ⟨i, h⟩) = i := by
  obtain ⟨hnd, hlen, hval⟩ := v
  intro i
  induction i using Nat.strong_induction_on with
  | _ i ih =>
    intro h
    obtain ⟨htask, hprev⟩ := hval i h
    have hgetr : ∀ k (hk : k < i), tr.get ⟨k, Nat.lt_trans hk h⟩ = taskOfRank k := by
      intro k hk
      rw [← taskOfRank_taskRank n (tr.get ⟨k, Nat.lt_trans hk h⟩) (hval k (Nat.lt_trans hk h)).1]
      rw [ih k hk (Nat.lt_trans hk h)]
    cases hp : prevTask (tr.get ⟨i, h⟩) with
    | none =>
      have ht0 : tr.get ⟨i, h⟩ = (0, 0) := prevTask_none _ hp
      cases i with
      | zero => rw [ht0]; rfl
      | succ i1 =>
        exfalso
        have h0 : (0 : ℕ) < i1 + 1 := Nat.succ_pos i1
        have hg0 : tr.get ⟨0, Nat.lt_trans h0 h⟩ = taskOfRank 0 := hgetr 0 h0
        have heq : tr.get ⟨0, Nat.lt_trans h0 h⟩ = tr.get ⟨i1 + 1, h⟩ := by
          rw [hg0, ht0]; rfl
        have := (hnd.get_inj_iff).mp heq
        simp at this
    | some s =>
      have hs : s ∈ tr.take i := hprev s hp
      obtain ⟨k, hk1, hk2⟩ := List.mem_iff_getElem.mp hs
      have hklen : (tr.take i).length = min i tr.length := List.length_take i tr
      have hki : k < i := by rw [hklen] at hk1; omega
      have hkl : k < tr.length := Nat.lt_trans hki h
      have hgk : (tr.take i)[k] = tr.get ⟨k, hkl⟩ := by
        rw [List.getElem_take]
        simp
      have hsk : s = taskOfRank k := by rw [← hk2, hgk, hgetr k hki]
      have hranks : taskRank s = k := by rw [hsk, taskRank_taskOfRank]
      have hrt : taskRank (tr.get ⟨i, h⟩) = k + 1 := by
        rw [prevTask_rank _ _ hp, hranks]
      rcases Nat.lt_or_ge (k + 1) i with hlt | hge
      · exfalso
        have hrl : k + 1 < tr.length := Nat.lt_trans hlt h
        have heq : tr.get ⟨k + 1, hrl⟩ = tr.get ⟨i, h⟩ := by
          rw [hgetr (k + 1) hlt, ← hrt, taskOfRank_taskRank n _ htask]
        have := (hnd.get_inj_iff).mp heq
        simp only [Fin.mk.injEq] at this
        omega
      · have hki1 : k + 1 = i := by
          have hle : k + 1 ≤ i := hki
          omega
        rw [hrt, hki1]

/-- C1: page transitions are serialized through the single queue: in every
valid interleaving of a queue of n pageSlide calls, every piece of work
(animate-out, fetch, animate-in) of an earlier call completes before any
piece of work of a later call begins, so at most one transition is ever in
flight and transitions apply in request order. -/
theorem pageSlide_serialized (n : ℕ) (tr : List (ℕ × ℕ)) (v : ValidTrace n tr)
    (i j : ℕ) (hi : i < tr.length) (hj : j < tr.length)
    (horder : (tr.get ⟨i, hi⟩).1 < (tr.get ⟨j, hj⟩).1) : i < j := by
  have hri := validTrace_rank_get n tr v i hi
  have hrj := validTrace_rank_get n tr v j hj
  obtain ⟨-, -, hval⟩ := v
  have hti := (hval i hi).1
  unfold taskRank at hri hrj
  unfold isTask at hti
  omega

/-- C1 witness: in the serialized execution of two queued calls, the fetch
of the first call (position 1) precedes the animate-out of the second call
(position 3). -/
theorem pageSlide_serialized_witness : ValidTrace 2 demoTrace ∧ (1 : ℕ) < 3 :=
  ⟨by decide,
    pageSlide_serialized 2 demoTrace (by decide) 1 3 (by decide) (by decide) (by decide)⟩
